import Mathlib

/-!
# Shallow embedding of `jupyter-bridge` (src/server/jupyter_bridge.py)

The server is a Flask app over a Redis store.  We embed the per-channel
rendezvous state machine: the slot model, `_enqueue`, `_dequeue` (with the
reader interlock, stale-reply reset, adaptive polling cadence and the
`finally` release), the statistics recorder, and the five HTTP handlers
that the claims touch.

Modelling conventions, each mirroring a concrete behaviour of the source
or of Redis:

* Byte strings are `List Nat`.  Python truthiness of a byte string
  (`if message:` / `if last_reply:`) is "present and nonempty".
* A Redis hash key "exists" iff it has at least one field; deleting the
  last field of a hash deletes the key (and with it the key's TTL).
  Writing fields with `hmset`/`hset` does NOT touch an existing TTL;
  only `expire` sets it.  These are documented Redis semantics.
* Slot hashes for `<channel>:request` / `<channel>:reply` are total
  functions `String → Direction → Slot`; statistics hashes
  (`stat:YYYY-MM-DD`) are an association list whose order stands for the
  (arbitrary) enumeration order of `redis_db.keys`.  Redis key sets are
  duplicate-free, so theorems about the stats projection carry a
  `Nodup` hypothesis.  Channels whose name itself starts with `stat:`
  would collide with statistic keys in Redis; the embedding keeps the
  two namespaces apart and such channels are out of scope.
* The float poll timings (`DEQUEUE_TIMEOUT_SECS` = 15, fast poll 0.1 s,
  slow poll 2 s) are modelled in integral milliseconds.  The polling
  `while` loop of `_dequeue` performs one `hget` before the loop and
  then one per iteration, where the iteration count is
  `⌈timeout / interval⌉`; the loop is embedded with that count as fuel.
  The store is not mutated by concurrent writers during a call, so a
  poll sees exactly the slot's current `message`.
* Store failures: every Redis call inside the `try:` body of `_dequeue`
  may raise, driven by a fault oracle `Faults` consulted once per call
  in program order.  The release write in the `finally:` block is
  modelled as succeeding (redis-py raises rather than returning a falsy
  value from `hmset`, and a failure of the release itself is outside
  every claim).
* `time.asctime` / `time.strftime` are the `now` / `today` fields of an
  environment record; `logger` calls are no-ops.
-/

namespace JupyterBridge

/-- A byte string (Python `bytes`), one `Nat` per byte. -/
abbrev Bytes := List Nat

/-- Python truthiness of an optional byte string: present and nonempty. -/
def bytesTruthy : Option Bytes → Bool
  | none => false
  | some m => !m.isEmpty

/-- The two slot directions (Redis key suffixes `request` / `reply`). -/
inductive Direction where
  | request
  | reply
deriving DecidableEq, Repr

/-- Key-suffix name of a direction (`REQUEST` / `REPLY` constants). -/
def Direction.name : Direction → String
  | .request => "request"
  | .reply => "reply"

/-- Values ever stored in the `dequeue_busy` field
(`DEQUEUE_BUSY_STATUS` = `b'busy'`, `DEQUEUE_IDLE_STATUS` = `b'idle'`). -/
inductive BusyFlag where
  | busy
  | idle
deriving DecidableEq, Repr

/-- One slot hash `<channel>:<direction>`.  Each field is optional:
`none` is Redis field absence (distinct from the empty string/bytes). -/
structure Slot where
  message : Option Bytes := none
  posted_time : Option String := none
  pickup_time : Option String := none
  dequeue_busy : Option BusyFlag := none
  reply_fast_polls_left : Option Int := none
deriving DecidableEq, Repr

/-- A Redis hash key exists iff it has at least one field;
`hgetall` returns an empty dict exactly when this is `true`. -/
def Slot.isEmptyKey (s : Slot) : Bool :=
  s.message.isNone && s.posted_time.isNone && s.pickup_time.isNone &&
    s.dequeue_busy.isNone && s.reply_fast_polls_left.isNone

/-- One statistics hash `stat:YYYY-MM-DD` with its four counter fields
(`count:request`, `request`, `count:reply`, `reply`). -/
structure StatRec where
  count_request : Option Int := none
  request_bytes : Option Int := none
  count_reply : Option Int := none
  reply_bytes : Option Int := none
deriving DecidableEq, Repr

/-- The Redis database: slot hashes with their TTLs, and statistic
hashes listed in the store's (arbitrary) key-enumeration order. -/
structure Store where
  slots : String → Direction → Slot
  ttl : String → Direction → Option Nat
  stats : List (String × StatRec)

/-- Environment of one call: configuration and wall-clock readings.
Times are in integral milliseconds (the source uses float seconds). -/
structure Env where
  dequeue_timeout_ms : Nat := 15000
  fast_poll_ms : Nat := 100
  slow_poll_ms : Nat := 2000
  allowed_fast_polls : Int := 10
  now : String := ""
  today : String := ""

/-- `EXPIRE_SECS = 60 * 60 * 24`. -/
def EXPIRE_SECS : Nat := 60 * 60 * 24

/-- `PAD_MESSAGE = True`. -/
def PAD_MESSAGE : Bool := true

/-- `f'{channel}:{operation}'`. -/
def slotKeyName (channel : String) (d : Direction) : String :=
  channel ++ ":" ++ d.name

/-- Update the fields of one slot hash (an `hmset` on that key;
Redis `hmset` leaves the key's TTL untouched). -/
def writeSlot (st : Store) (c : String) (d : Direction) (f : Slot → Slot) : Store :=
  { st with slots := fun c' d' => if c' = c ∧ d' = d then f (st.slots c' d') else st.slots c' d' }

/-- Set the TTL of one slot key (Redis `expire`). -/
def setTtl (st : Store) (c : String) (d : Direction) (n : Nat) : Store :=
  { st with ttl := fun c' d' => if c' = c ∧ d' = d then some n else st.ttl c' d' }

/-- Effect of `hdel key message` when the field is present: the field
goes away, and if it was the last field the whole key (with its TTL)
goes away. -/
def dropTtlIfEmptyKey (st : Store) (c : String) (d : Direction) : Store :=
  if (st.slots c d).isEmptyKey then
    { st with ttl := fun c' d' => if c' = c ∧ d' = d then none else st.ttl c' d' }
  else st

def delMessageStore (st : Store) (c : String) (d : Direction) : Store :=
  dropTtlIfEmptyKey (writeSlot st c d (fun s => { s with message := none })) c d

/-- `_del_message(key, permissive)`: raise unless `hdel` removed the
field or `permissive` is set (source lines 341–343). -/
def del_message (st : Store) (c : String) (d : Direction) (permissive : Bool) :
    Except String Store :=
  if (st.slots c d).message.isSome then .ok (delMessageStore st c d)
  else if permissive then .ok st
  else .error ("redis failed deleting " ++ slotKeyName c d ++ " subkey message")

/-- `_expire(key)`: Redis `expire` returns 1 iff the key exists; the
facade raises otherwise (source lines 350–352). -/
def expireKey (st : Store) (c : String) (d : Direction) : Except String Store :=
  if (st.slots c d).isEmptyKey then
    .error ("redis failed expiring " ++ slotKeyName c d)
  else .ok (setTtl st c d EXPIRE_SECS)

/-- `f'{STATISTIC}:{today}'` — the key of today's counters. -/
def statKey (today : String) : String := "stat:" ++ today

/-- Redis `hincrby key field n` in an association list of stat hashes:
update in place, or append a fresh hash at the end of the enumeration. -/
def hincrStats (stats : List (String × StatRec)) (key : String) (f : StatRec → StatRec) :
    List (String × StatRec) :=
  match stats with
  | [] => [(key, f ⟨none, none, none, none⟩)]
  | (k, r) :: rest =>
    if k = key then (k, f r) :: rest else (k, r) :: hincrStats rest key f

/-- `hincrby(stat_key, f'count:{operation}', 1)`. -/
def incrCount (d : Direction) (r : StatRec) : StatRec :=
  match d with
  | .request => { r with count_request := some (r.count_request.getD 0 + 1) }
  | .reply => { r with count_reply := some (r.count_reply.getD 0 + 1) }

/-- `hincrby(stat_key, operation, len(msg))`. -/
def incrBytes (d : Direction) (n : Int) (r : StatRec) : StatRec :=
  match d with
  | .request => { r with request_bytes := some (r.request_bytes.getD 0 + n) }
  | .reply => { r with reply_bytes := some (r.reply_bytes.getD 0 + n) }

/-- `_update_stats(operation, msg)` (source lines 345–348). -/
def update_stats (env : Env) (st : Store) (d : Direction) (msg : Bytes) : Store :=
  { st with stats := (hincrStats (hincrStats st.stats (statKey env.today) (incrCount d))
      (statKey env.today) (incrBytes d (msg.length : Int))) }

/-- `_enqueue(local_transaction, operation, channel, msg)` (source lines
247–262).  `hgetall` is empty or lacks `message` exactly when the
`message` field is absent; on success one `hmset` writes
`{message, pickup_time: '', posted_time: now}`, then `expire`, then the
two statistics increments.  Otherwise raise "contains unprocessed
message" (SlotOccupied). -/
def enqueue (env : Env) (st : Store) (d : Direction) (channel : String) (msg : Bytes) :
    Except String Store :=
  if (st.slots channel d).message.isNone then
    let st1 := writeSlot st channel d
      (fun s => { s with message := some msg, pickup_time := some "", posted_time := some env.now })
    match expireKey st1 channel d with
    | .error e => .error e
    | .ok st2 => .ok (update_stats env st2 d msg)
  else
    .error ("Channel " ++ slotKeyName channel d ++ " contains unprocessed message")

/-! ## `_dequeue` with fault injection

Every Redis call inside the `try:` body of `_dequeue` consults a fault
oracle, once per call in program order; a `true` entry makes that call
raise.  The `finally:` block then still runs for a valid reader. -/

/-- Fault oracle: whether the n-th Redis call of this `_dequeue` raises. -/
def Faults := Nat → Bool

/-- The oracle of a normally-operating store: no call raises. -/
def noFault : Faults := fun _ => false

/-- State threaded through the body of `_dequeue`: the store plus the
index of the next Redis call (for the fault oracle). -/
structure OpState where
  store : Store
  ctr : Nat

/-- Computation inside the `try:` body of `_dequeue`: may mutate the
store, numbers its Redis calls, and may raise. -/
def DeqM (α : Type) := Faults → OpState → Except String α × OpState

/-- Sequencing in `DeqM`; a raise aborts the rest of the body. -/
def DeqM.bind {α β : Type} (x : DeqM α) (f : α → DeqM β) : DeqM β := fun o s =>
  match x o s with
  | (.ok a, s') => f a o s'
  | (.error e, s') => (.error e, s')

instance : Monad DeqM where
  pure a := fun _ s => (.ok a, s)
  bind := DeqM.bind

/-- One Redis call boundary: consult the fault oracle and advance the
call counter; raise if this call is chosen to fail. -/
def opCall : DeqM Unit := fun o s =>
  (if o s.ctr then .error "redis failure" else .ok (), { s with ctr := s.ctr + 1 })

/-- Read the current store (pairs with the `hget`/`hgetall` just counted). -/
def getStore : DeqM Store := fun _ s => (.ok s.store, s)

/-- Apply an infallible store update (pairs with the call just counted). -/
def modStore (f : Store → Store) : DeqM Unit := fun _ s =>
  (.ok (), { s with store := f s.store })

/-- Apply a store operation that can itself raise (`_del_message`,
`_expire`). -/
def runStoreOp (f : Store → Except String Store) : DeqM Unit := fun _ s =>
  match f s.store with
  | .ok st' => (.ok (), { s with store := st' })
  | .error e => (.error e, s)

/-- Iteration count of the polling `while` loop when no message ever
arrives: the loop starts from `DEQUEUE_TIMEOUT_SECS` and subtracts
`dequeue_polling_secs` until it is no longer positive, i.e. it runs
`⌈timeout / interval⌉` times (in milliseconds). -/
def pollIters (timeout_ms interval_ms : Nat) : Nat :=
  (timeout_ms + interval_ms - 1) / interval_ms

/-- The polling phase of `_dequeue` (source lines 301–307): one
`hget(key, message)` before the loop, then while the result is `None`
and time remains, sleep and `hget` again.  `fuel` is the number of
loop iterations still allowed. -/
def pollReads (c : String) (d : Direction) : Nat → DeqM (Option Bytes)
  | 0 => do
    opCall
    let st ← getStore
    pure (st.slots c d).message
  | n + 1 => do
    opCall
    let st ← getStore
    match (st.slots c d).message with
    | some m => pure (some m)
    | none => pollReads c d n

/-- The `try:` body of `_dequeue` (source lines 270–315), returning the
`message` and `valid_reader` locals together with the
`dequeue_polling_secs` chosen by the cadence heuristic (`none` when the
redundant-reader early return skipped cadence selection). -/
def dequeueBody (env : Env) (d : Direction) (channel : String) (reset_first : Bool) :
    DeqM (Option Bytes × Bool × Option Nat) := do
  opCall
  let st0 ← getStore
  let dequeue_busy := ((st0.slots channel d).dequeue_busy).getD .idle
  if dequeue_busy = .busy then
    pure (none, false, none)
  else do
    opCall
    modStore (fun st => writeSlot st channel d (fun s => { s with dequeue_busy := some .busy }))
    if reset_first then do
      opCall
      runStoreOp (fun st => del_message st channel d true)
    opCall
    modStore (fun st => writeSlot st channel d (fun s => { s with pickup_time := some "" }))
    opCall
    runStoreOp (fun st => expireKey st channel d)
    opCall
    let st1 ← getStore
    let fast_polls_left := ((st1.slots channel d).reply_fast_polls_left).getD env.allowed_fast_polls
    let interval ← if fast_polls_left > 0 then do
        opCall
        modStore (fun st => writeSlot st channel d
          (fun s => { s with reply_fast_polls_left := some (fast_polls_left - 1) }))
        pure env.fast_poll_ms
      else
        pure env.slow_poll_ms
    let message ← pollReads channel d (pollIters env.dequeue_timeout_ms interval)
    match message with
    | some m =>
      if m.isEmpty then
        -- `if message:` is false for the empty byte string: the call
        -- logs a timeout and returns the empty message unconsumed.
        pure (some m, true, some interval)
      else do
        opCall
        runStoreOp (fun st => del_message st channel d false)
        opCall
        modStore (fun st => writeSlot st channel d
          (fun s => { s with pickup_time := some env.now, reply_fast_polls_left := some env.allowed_fast_polls }))
        pure (some m, true, some interval)
    | none => pure (none, true, some interval)

/-- Result of one `_dequeue` call: the store it leaves behind, the
returned `(message, valid_reader)` pair, the exception it propagates
(if any), and the polling interval it chose. -/
structure DequeueResult where
  store : Store
  message : Option Bytes
  valid_reader : Bool
  exc : Option String
  interval : Option Nat

/-- The `finally:` release (source lines 316–318): set
`dequeue_busy := idle`. -/
def releaseBusy (st : Store) (c : String) (d : Direction) : Store :=
  writeSlot st c d (fun s => { s with dequeue_busy := some .idle })

/-- `_dequeue(local_transaction, operation, channel, reset_first)`
(source lines 264–321).  The body runs with the fault oracle; the
`finally:` block releases the interlock whenever `valid_reader` is
still `True` — on normal return and on a raise alike (an exception can
only occur while `valid_reader` is `True`, since the redundant-reader
branch performs no further Redis call). -/
def dequeue (env : Env) (st : Store) (d : Direction) (channel : String)
    (reset_first : Bool) (o : Faults) : DequeueResult :=
  match dequeueBody env d channel reset_first o ⟨st, 0⟩ with
  | (.ok (msg, valid, intv), s) =>
    if valid then
      { store := releaseBusy s.store channel d, message := msg, valid_reader := true,
        exc := none, interval := intv }
    else
      { store := s.store, message := msg, valid_reader := false, exc := none, interval := intv }
  | (.error e, s) =>
    { store := releaseBusy s.store channel d, message := none, valid_reader := true,
      exc := some e, interval := none }

/-! ## HTTP surface -/

/-- A Flask `Response` as far as the claims observe it: status code,
content type and body bytes (every handler also sets the permissive
CORS header; `/stats` instead sets a content-disposition header). -/
structure HttpResponse where
  status : Nat
  content_type : String
  body : Bytes
deriving DecidableEq, Repr

/-- Bytes of a string written into a response, one entry per code
point (an injective stand-in for the UTF-8 encoding; the texts involved
are ASCII and no claim inspects individual multi-byte sequences). -/
def strBytes (s : String) : Bytes := s.data.map Char.toNat

/-- Python `str.startswith` / the source's `content_type.startswith`. -/
def strStartsWith (pre s : String) : Bool := pre.data.isPrefixOf s.data

/-- Lexicographic code-point order on character lists, as Python
compares strings. -/
def charsLe : List Char → List Char → Bool
  | [], _ => true
  | _ :: _, [] => false
  | c1 :: t1, c2 :: t2 =>
    if c1.toNat < c2.toNat then true
    else if c2.toNat < c1.toNat then false
    else charsLe t1 t2

/-- Lexicographic order on strings (Python `sorted` on `str` keys). -/
def strLe (a b : String) : Bool := charsLe a.data b.data

/-- `_add_padding(message)` (source lines 323–329): with `PAD_MESSAGE`
on, append 1500 ASCII spaces. -/
def add_padding (message : Bytes) : Bytes :=
  if PAD_MESSAGE then message ++ List.replicate 1500 32 else message

/-- `_exception_message(e)` (source lines 331–335): the `e.response`
probe raises `AttributeError` for the plain `Exception`s this module
raises, so the handler body falls back to `str(e)`. -/
def exception_message (e : String) : String := e

/-- A 500 response carrying the exception text. -/
def errorResponse (e : String) : HttpResponse :=
  ⟨500, "text/plain", strBytes (exception_message e)⟩

/-- `queue_request` (source lines 142–172): check channel and media
type, sweep a stranded reply (`if last_reply:` — present *and*
nonempty — then `_del_message(reply_key)`, not permissive), then
`_enqueue` into the request slot.  Any raise maps to a 500 whose body
is the exception text; store mutations already performed persist. -/
def queue_request (env : Env) (st : Store) (channelArg : Option String)
    (content_type : String) (bodyData : Bytes) : Store × HttpResponse :=
  match channelArg with
  | none => (st, errorResponse "Channel is missing in parameter list")
  | some channel =>
    if strStartsWith "application/json" content_type then
      let last_reply := (st.slots channel .reply).message
      if bytesTruthy last_reply then
        match del_message st channel .reply false with
        | .error e => (st, errorResponse e)
        | .ok st1 =>
          match enqueue env st1 .request channel bodyData with
          | .ok st2 => (st2, ⟨200, "text/plain", []⟩)
          | .error e => (st1, errorResponse e)
      else
        match enqueue env st .request channel bodyData with
        | .ok st2 => (st2, ⟨200, "text/plain", []⟩)
        | .error e => (st, errorResponse e)
    else (st, errorResponse "Payload must be application/json")

/-- `queue_reply` (source lines 174–194): like `queue_request` but for
`text/plain` bodies, the reply slot, and no stranded-reply sweep. -/
def queue_reply (env : Env) (st : Store) (channelArg : Option String)
    (content_type : String) (bodyData : Bytes) : Store × HttpResponse :=
  match channelArg with
  | none => (st, errorResponse "Channel is missing in parameter list")
  | some channel =>
    if strStartsWith "text/plain" content_type then
      match enqueue env st .reply channel bodyData with
      | .ok st2 => (st2, ⟨200, "text/plain", []⟩)
      | .error e => (st, errorResponse e)
    else (st, errorResponse "Payload must be text/plain")

/-- Shared shape of `dequeue_request` / `dequeue_reply` (source lines
196–245): run `_dequeue`; a propagated exception maps to 500, an
invalid reader to 429 with empty body, `None` to 408, and a message —
including the empty one — to a padded 200 `application/json`. -/
def dequeueHandler (env : Env) (st : Store) (d : Direction) (channelArg : Option String)
    (resetArg : Bool) (o : Faults) : Store × HttpResponse :=
  match channelArg with
  | none => (st, errorResponse "Channel is missing in parameter list")
  | some channel =>
    let r := dequeue env st d channel resetArg o
    match r.exc with
    | some e => (r.store, errorResponse e)
    | none =>
      if r.valid_reader then
        match r.message with
        | none => (r.store, ⟨408, "text/plain", []⟩)
        | some m => (r.store, ⟨200, "application/json", add_padding m⟩)
      else (r.store, ⟨429, "text/plain", []⟩)

/-- `dequeue_request` (source lines 196–219). -/
def dequeue_request (env : Env) (st : Store) (channelArg : Option String)
    (resetArg : Bool) (o : Faults) : Store × HttpResponse :=
  dequeueHandler env st .request channelArg resetArg o

/-- `dequeue_reply` (source lines 221–245). -/
def dequeue_reply (env : Env) (st : Store) (channelArg : Option String)
    (resetArg : Bool) (o : Faults) : Store × HttpResponse :=
  dequeueHandler env st .reply channelArg resetArg o

/-! ## `/stats` -/

/-- `'' if count is None else count.decode('utf-8')`: one CSV cell. -/
def renderCount : Option Int → String
  | none => ""
  | some n => toString n

/-- The fixed CSV header
`date,count(request),request bytes,count(reply),reply bytes`. -/
def statsHeader : String :=
  "date,count(request),request bytes,count(reply),reply bytes"

/-- One CSV line `f"{day_string},{','.join(counts)}"` with the four
fields in `hmget` order. -/
def statLine (day_string : String) (r : StatRec) : String :=
  day_string ++ "," ++ renderCount r.count_request ++ "," ++ renderCount r.request_bytes ++
    "," ++ renderCount r.count_reply ++ "," ++ renderCount r.reply_bytes

/-- The `csv_dict` of the handler, in `redis_db.keys('stat:*')`
enumeration order: for each matching key, the date (key minus the
5-character `stat:` prefix) and its CSV line.  Redis key sets are
duplicate-free, so the Python dict never collapses entries. -/
def statsRows (st : Store) : List (String × String) :=
  (st.stats.filter (fun kv => strStartsWith "stat:" kv.1)).map
    (fun kv => (kv.1.drop 5, statLine (kv.1.drop 5) kv.2))

/-- Row order used by `sorted(csv_dict.items(), key=lambda item:
item[0])`: ascending lexicographic order of the date strings. -/
def rowLe (a b : String × String) : Prop := strLe a.1 b.1 = true

instance : DecidableRel rowLe := fun a b => instDecidableEqBool (strLe a.1 b.1) true

/-- `dict(sorted(csv_dict.items(), key=lambda item: item[0]))`: the
rows sorted by date ascending.  (Python's sort is a stable mergesort;
on the duplicate-free key sets Redis returns, every correct ascending
sort produces the same list, so a structurally recursive insertion
sort stands in for it.) -/
def statsSorted (st : Store) : List (String × String) :=
  List.insertionSort rowLe (statsRows st)

/-- Body of the `/stats` response:
`f"{header}\n{'\n'.join(sorted_csv.values())}"`. -/
def statsBody (st : Store) : String :=
  statsHeader ++ "\n" ++ String.intercalate "\n" ((statsSorted st).map Prod.snd)

/-- `stats` (source lines 115–140): a 200 `text/csv` projection of the
`stat:*` records. -/
def stats_endpoint (st : Store) : HttpResponse :=
  ⟨200, "text/csv", strBytes (statsBody st)⟩

/-! ## Auxiliary definitions for concrete runs -/

/-- Lookup of one stat hash by key in the enumeration list. -/
def statsGet (stats : List (String × StatRec)) (key : String) : Option StatRec :=
  (stats.find? (fun kv => kv.1 = key)).map Prod.snd

/-- Extract the store of a successful store operation (fallback on error). -/
def okStore (r : Except String Store) (fallback : Store) : Store :=
  match r with
  | .ok s => s
  | .error _ => fallback

/-- Default environment (all configuration at its defaults). -/
def env0 : Env := {}

/-- A store holding two statistics records, listed out of date order. -/
def statStore : Store :=
  { slots := fun _ _ => ⟨none, none, none, none, none⟩, ttl := fun _ _ => none,
    stats := [("stat:2021-02-03", ⟨some 2, some 30, none, none⟩),
              ("stat:2021-01-01", ⟨some 1, some 10, some 1, some 5⟩)] }

/-- Environment with a 1 ms dequeue timeout, for concrete timeout runs. -/
def envShort : Env := { dequeue_timeout_ms := 1, fast_poll_ms := 1, slow_poll_ms := 1 }

/-- A store with no keys at all. -/
def emptyStore : Store :=
  { slots := fun _ _ => ⟨none, none, none, none, none⟩, ttl := fun _ _ => none, stats := [] }

/-- A store whose every slot has a busy reader interlock. -/
def busyStore : Store :=
  { slots := fun _ _ => ⟨none, none, none, some .busy, none⟩,
    ttl := fun _ _ => none, stats := [] }

/-- A store whose reply slots hold a stranded *empty* reply message. -/
def staleEmptyReplyStore : Store :=
  { slots := fun _ d => if d = .reply then ⟨some [], none, none, none, none⟩
      else ⟨none, none, none, none, none⟩,
    ttl := fun _ _ => none, stats := [] }

/-- A store whose reply slots hold a stranded nonempty reply message. -/
def staleReplyStore : Store :=
  { slots := fun _ d => if d = .reply then ⟨some [7], none, none, none, none⟩
      else ⟨none, none, none, none, none⟩,
    ttl := fun _ _ => none, stats := [] }

/-- Straight-line form of one fault-free `_dequeue` call. -/
def dequeueRun (env : Env) (st : Store) (d : Direction) (channel : String)
    (reset_first : Bool) : DequeueResult :=
  if ((st.slots channel d).dequeue_busy).getD .idle = .busy then
    { store := st, message := none, valid_reader := false, exc := none, interval := none }
  else
    let st1 := writeSlot st channel d (fun s => { s with dequeue_busy := some .busy })
    let st2 := if reset_first then
        (if (st1.slots channel d).message.isSome then delMessageStore st1 channel d else st1)
      else st1
    let st3 := writeSlot st2 channel d (fun s => { s with pickup_time := some "" })
    let st4 := setTtl st3 channel d EXPIRE_SECS
    let fpl := ((st4.slots channel d).reply_fast_polls_left).getD env.allowed_fast_polls
    let st5 := if fpl > 0 then
        writeSlot st4 channel d (fun s => { s with reply_fast_polls_left := some (fpl - 1) })
      else st4
    let interval := if fpl > 0 then env.fast_poll_ms else env.slow_poll_ms
    match (st5.slots channel d).message with
    | some m =>
      if m.isEmpty then
        { store := releaseBusy st5 channel d, message := some m, valid_reader := true,
          exc := none, interval := some interval }
      else
        let st6 := delMessageStore st5 channel d
        let st7 := writeSlot st6 channel d
          (fun s => { s with pickup_time := some env.now, reply_fast_polls_left := some env.allowed_fast_polls })
        { store := releaseBusy st7 channel d, message := some m, valid_reader := true,
          exc := none, interval := some interval }
    | none =>
      { store := releaseBusy st5 channel d, message := none, valid_reader := true,
        exc := none, interval := some interval }


/-! ## Store-operation lemmas -/

@[simp] theorem writeSlot_slots_self (st : Store) (c : String) (d : Direction) (f : Slot → Slot) :
    (writeSlot st c d f).slots c d = f (st.slots c d) := by
  simp [writeSlot]

theorem writeSlot_slots_other (st : Store) (c : String) (d : Direction) (f : Slot → Slot)
    (c' : String) (d' : Direction) (h : ¬(c' = c ∧ d' = d)) :
    (writeSlot st c d f).slots c' d' = st.slots c' d' := by
  simp [writeSlot, h]

@[simp] theorem writeSlot_ttl (st : Store) (c : String) (d : Direction) (f : Slot → Slot) :
    (writeSlot st c d f).ttl = st.ttl := rfl

@[simp] theorem writeSlot_stats (st : Store) (c : String) (d : Direction) (f : Slot → Slot) :
    (writeSlot st c d f).stats = st.stats := rfl

@[simp] theorem setTtl_slots (st : Store) (c : String) (d : Direction) (n : Nat) :
    (setTtl st c d n).slots = st.slots := rfl

@[simp] theorem setTtl_stats (st : Store) (c : String) (d : Direction) (n : Nat) :
    (setTtl st c d n).stats = st.stats := rfl

@[simp] theorem setTtl_ttl_self (st : Store) (c : String) (d : Direction) (n : Nat) :
    (setTtl st c d n).ttl c d = some n := by
  simp [setTtl]

theorem setTtl_ttl_other (st : Store) (c : String) (d : Direction) (n : Nat)
    (c' : String) (d' : Direction) (h : ¬(c' = c ∧ d' = d)) :
    (setTtl st c d n).ttl c' d' = st.ttl c' d' := by
  simp [setTtl, h]

/-- A slot with a set `pickup_time` is a nonempty hash. -/
theorem isEmptyKey_false_of_pickup (s : Slot) (h : s.pickup_time.isSome) :
    s.isEmptyKey = false := by
  cases hp : s.pickup_time with
  | none => rw [hp] at h; simp at h
  | some v => simp [Slot.isEmptyKey, hp]

/-- A slot with a set `message` is a nonempty hash. -/
theorem isEmptyKey_false_of_message (s : Slot) (h : s.message.isSome) :
    s.isEmptyKey = false := by
  cases hp : s.message with
  | none => rw [hp] at h; simp at h
  | some v => simp [Slot.isEmptyKey, hp]

@[simp] theorem delMessageStore_slots (st : Store) (c : String) (d : Direction) :
    (delMessageStore st c d).slots = (writeSlot st c d (fun s => { s with message := none })).slots := by
  unfold delMessageStore dropTtlIfEmptyKey
  split <;> rfl

@[simp] theorem delMessageStore_stats (st : Store) (c : String) (d : Direction) :
    (delMessageStore st c d).stats = st.stats := by
  unfold delMessageStore dropTtlIfEmptyKey
  split <;> rfl

/-! ## The no-fault run of `_dequeue`

`dequeueRun` is the straight-line unfolding of `dequeue` under the
`noFault` oracle; the equivalence theorem below lets every claim reason
on it instead of on the monadic body. -/

theorem bind_apply {α β : Type} (x : DeqM α) (f : α → DeqM β) (o : Faults) (s : OpState) :
    (x >>= f) o s = match x o s with
      | (.ok a, s') => f a o s'
      | (.error e, s') => (.error e, s') := rfl

@[simp] theorem opCall_noFault (s : OpState) :
    opCall noFault s = (.ok (), { s with ctr := s.ctr + 1 }) := rfl

/-- Under `noFault`, the polling phase returns the slot's current
message, leaves the store unchanged, and only advances the call
counter. -/
theorem pollReads_noFault (c : String) (d : Direction) (n : Nat) (s : OpState) :
    pollReads c d n noFault s =
      (.ok (s.store.slots c d).message,
        ⟨s.store, s.ctr + (match (s.store.slots c d).message with
          | some _ => 1
          | none => n + 1)⟩) := by
  induction n generalizing s with
  | zero =>
    cases hm : (s.store.slots c d).message with
    | none => simp [pollReads, bind_apply, opCall, noFault, getStore, pure, hm]
    | some m => simp [pollReads, bind_apply, opCall, noFault, getStore, pure, hm]
  | succ n ih =>
    cases hm : (s.store.slots c d).message with
    | none =>
      simp only [pollReads, bind_apply, opCall_noFault, getStore, hm, ih]
      simp [hm]
      ring
    | some m =>
      simp [pollReads, bind_apply, opCall, noFault, getStore, pure, hm]

/-- Fault-free `_dequeue` equals its straight-line unfolding. -/
theorem dequeue_noFault (env : Env) (st : Store) (d : Direction) (channel : String)
    (reset_first : Bool) :
    dequeue env st d channel reset_first noFault = dequeueRun env st d channel reset_first := by
  unfold dequeue dequeueRun dequeueBody
  cases hb : ((st.slots channel d).dequeue_busy).getD .idle with
  | busy =>
    simp [bind_apply, opCall, noFault, getStore, pure, hb]
  | idle =>
    cases reset_first with
    | false =>
      simp only [bind_apply, opCall_noFault, getStore, modStore, runStoreOp, hb, pure,
        reduceCtorEq, if_false, ite_false, Bool.false_eq_true, pollReads_noFault,
        expireKey, del_message, Slot.isEmptyKey, writeSlot_slots_self, setTtl_slots,
        Option.isNone_some, Bool.and_false, Bool.false_and, if_true, ite_true]
      by_cases hf : (st.slots channel d).reply_fast_polls_left.getD env.allowed_fast_polls > 0
      all_goals
        simp only [hf, if_true, if_false, ite_true, ite_false, bind_apply, opCall_noFault,
          getStore, modStore, runStoreOp, pure, pollReads_noFault, writeSlot_slots_self,
          setTtl_slots, Bool.false_eq_true, reduceCtorEq]
      all_goals cases hm : (st.slots channel d).message
      all_goals
        simp only [hm, bind_apply, opCall_noFault, getStore, modStore, runStoreOp, pure,
          writeSlot_slots_self, setTtl_slots, Option.isSome_some, if_true, ite_true,
          Bool.false_eq_true, reduceCtorEq]
      all_goals rename_i m
      all_goals by_cases he : List.isEmpty m
      all_goals
        simp only [he, hm, if_true, if_false, ite_true, ite_false, bind_apply, opCall_noFault,
          getStore, modStore, runStoreOp, pure, writeSlot_slots_self, setTtl_slots,
          Option.isSome_some, Bool.false_eq_true, reduceCtorEq]
    | true =>
      simp only [bind_apply, opCall_noFault, getStore, modStore, runStoreOp, hb, pure,
        reduceCtorEq, if_false, ite_false, Bool.false_eq_true, if_true, ite_true,
        expireKey, del_message, Slot.isEmptyKey, writeSlot_slots_self, setTtl_slots,
        delMessageStore_slots, Option.isNone_some, Bool.and_false, Bool.false_and]
      cases hm : (st.slots channel d).message
      all_goals
        simp only [hm, Option.isSome_some, Option.isSome_none, if_true, if_false, ite_true,
          ite_false, bind_apply, opCall_noFault, getStore, modStore, runStoreOp, pure,
          pollReads_noFault, writeSlot_slots_self, setTtl_slots, delMessageStore_slots,
          Bool.false_eq_true, reduceCtorEq]
      all_goals by_cases hf : (st.slots channel d).reply_fast_polls_left.getD env.allowed_fast_polls > 0
      all_goals
        simp only [hf, hm, Option.isSome_some, Option.isSome_none, if_true, if_false, ite_true,
          ite_false, bind_apply, opCall_noFault, getStore, modStore, runStoreOp, pure,
          pollReads_noFault, writeSlot_slots_self, setTtl_slots, delMessageStore_slots,
          Bool.false_eq_true, reduceCtorEq]

/-! ## Further helper lemmas -/

theorem getD_eq_busy_iff (o : Option BusyFlag) :
    o.getD .idle = .busy ↔ o = some .busy := by
  cases o with
  | none => simp
  | some b => cases b <;> simp

@[simp] theorem releaseBusy_busy_self (st : Store) (c : String) (d : Direction) :
    ((releaseBusy st c d).slots c d).dequeue_busy = some BusyFlag.idle := by
  simp [releaseBusy]

/-! ## Claims -/

/-- Claim C2.  Redundant-reader rejection: with `dequeue_busy` holding
`busy` (absence counting as idle), `_dequeue` returns `(none, false)`
immediately, the whole store — in particular every slot field,
`dequeue_busy` included — is left untouched, and both dequeue endpoints
map the result to a 429 response with an empty body. -/
theorem claim_C2_redundant_reader (env : Env) (st : Store) (channel : String) (d : Direction)
    (reset : Bool) (hbusy : (st.slots channel d).dequeue_busy = some .busy) :
    dequeue env st d channel reset noFault =
      { store := st, message := none, valid_reader := false, exc := none, interval := none } ∧
    (d = .request →
      dequeue_request env st (some channel) reset noFault = (st, ⟨429, "text/plain", []⟩)) ∧
    (d = .reply →
      dequeue_reply env st (some channel) reset noFault = (st, ⟨429, "text/plain", []⟩)) := by
  have h1 : dequeue env st d channel reset noFault =
      { store := st, message := none, valid_reader := false, exc := none, interval := none } := by
    rw [dequeue_noFault]
    unfold dequeueRun
    simp [hbusy]
  refine ⟨h1, ?_, ?_⟩
  · intro hd
    subst hd
    unfold dequeue_request dequeueHandler
    simp [h1]
  · intro hd
    subst hd
    unfold dequeue_reply dequeueHandler
    simp [h1]

/-- Witness for C2 at a concrete busy store. -/
theorem claim_C2_witness :
    (busyStore.slots "c" Direction.request).dequeue_busy = some BusyFlag.busy ∧
    dequeue env0 busyStore .request "c" false noFault =
      { store := busyStore, message := none, valid_reader := false, exc := none,
        interval := none } :=
  ⟨rfl, (claim_C2_redundant_reader env0 busyStore "c" .request false rfl).1⟩

/-- Claim C3.  Interlock release: any `_dequeue` execution that ends
with `valid_reader = true` — successful consume, timeout, or a store
operation raising mid-body — leaves `dequeue_busy = idle` in the slot,
because the `finally:` block runs on every such exit. -/
theorem claim_C3_interlock_release (env : Env) (st : Store) (d : Direction) (channel : String)
    (reset : Bool) (o : Faults)
    (hvalid : (dequeue env st d channel reset o).valid_reader = true) :
    ((dequeue env st d channel reset o).store.slots channel d).dequeue_busy =
      some BusyFlag.idle := by
  unfold dequeue at hvalid ⊢
  rcases hres : dequeueBody env d channel reset o ⟨st, 0⟩ with ⟨res, s⟩
  rw [hres] at hvalid
  cases res with
  | error e => simp
  | ok trip =>
    rcases trip with ⟨msg, valid, intv⟩
    cases valid with
    | false => simp at hvalid
    | true => simp

/-- Witness for C3: a fault-free timeout run (fault oracle `noFault`,
empty slot) releases the interlock. -/
theorem claim_C3_witness :
    (dequeue envShort emptyStore .request "c" false noFault).valid_reader = true ∧
    ((dequeue envShort emptyStore .request "c" false noFault).store.slots "c" .request).dequeue_busy =
      some BusyFlag.idle :=
  ⟨rfl, claim_C3_interlock_release envShort emptyStore .request "c" false noFault rfl⟩

@[simp] theorem update_stats_slots (env : Env) (st : Store) (d : Direction) (msg : Bytes) :
    (update_stats env st d msg).slots = st.slots := rfl

@[simp] theorem update_stats_ttl (env : Env) (st : Store) (d : Direction) (msg : Bytes) :
    (update_stats env st d msg).ttl = st.ttl := rfl

/-- Lookup after `hincrby` on the same key. -/
theorem statsGet_hincr_self (l : List (String × StatRec)) (k : String) (f : StatRec → StatRec) :
    statsGet (hincrStats l k f) k =
      some (f ((statsGet l k).getD ⟨none, none, none, none⟩)) := by
  induction l with
  | nil => simp [statsGet, hincrStats]
  | cons kv rest ih =>
    rcases kv with ⟨k1, r1⟩
    by_cases hk : k1 = k
    · subst hk
      simp [statsGet, hincrStats]
    · simp [statsGet, hincrStats, hk, List.find?]
      simpa [statsGet] using ih

/-- Lookup after `hincrby` on a different key. -/
theorem statsGet_hincr_other (l : List (String × StatRec)) (k k' : String)
    (f : StatRec → StatRec) (h : k' ≠ k) :
    statsGet (hincrStats l k f) k' = statsGet l k' := by
  induction l with
  | nil => simp [statsGet, hincrStats, List.find?, Ne.symm h]
  | cons kv rest ih =>
    rcases kv with ⟨k1, r1⟩
    by_cases hk : k1 = k
    · subst hk
      by_cases hk' : k1 = k'
      · exact absurd hk'.symm h
      · simp [statsGet, hincrStats, hk', List.find?]
    · by_cases hk' : k1 = k'
      · subst hk'
        simp [statsGet, hincrStats, hk, List.find?]
      · simp [statsGet, hincrStats, hk, hk', List.find?]
        simpa [statsGet] using ih

/-- The successful branch of `_enqueue`, made explicit. -/
theorem enqueue_ok (env : Env) (st : Store) (d : Direction) (channel : String) (p : Bytes)
    (hm : (st.slots channel d).message = none) :
    enqueue env st d channel p =
      .ok (update_stats env (setTtl (writeSlot st channel d (fun s =>
        { s with message := some p, pickup_time := some "", posted_time := some env.now }))
        channel d EXPIRE_SECS) d p) := by
  simp [enqueue, hm, expireKey, Slot.isEmptyKey]

/-- Frame effect of a successful `_enqueue` (shared helper): only the
target slot's `message`/`posted_time`/`pickup_time`, its TTL and
today's statistics hash change. -/
theorem enqueue_frame_spec (env : Env) (st st' : Store) (channel : String) (d : Direction)
    (p : Bytes) (h : enqueue env st d channel p = .ok st') :
    (st'.slots channel d).message = some p ∧
    (st'.slots channel d).posted_time = some env.now ∧
    (st'.slots channel d).pickup_time = some "" ∧
    (st'.slots channel d).dequeue_busy = (st.slots channel d).dequeue_busy ∧
    (st'.slots channel d).reply_fast_polls_left = (st.slots channel d).reply_fast_polls_left ∧
    st'.ttl channel d = some EXPIRE_SECS ∧
    (∀ (c' : String) (d' : Direction), ¬(c' = channel ∧ d' = d) →
      st'.slots c' d' = st.slots c' d' ∧ st'.ttl c' d' = st.ttl c' d') ∧
    statsGet st'.stats (statKey env.today) =
      some (incrBytes d (p.length : Int) (incrCount d
        ((statsGet st.stats (statKey env.today)).getD ⟨none, none, none, none⟩))) ∧
    (∀ k, k ≠ statKey env.today → statsGet st'.stats k = statsGet st.stats k) := by
  by_cases hm : (st.slots channel d).message = none
  · rw [enqueue_ok env st d channel p hm] at h
    cases h with
    | refl =>
      refine ⟨by simp, by simp, by simp, by simp, by simp, by simp, ?_, ?_, ?_⟩
      · intro c' d' hcd
        constructor
        · simp only [update_stats_slots, setTtl_slots]
          exact writeSlot_slots_other st channel d _ c' d' hcd
        · simp only [update_stats_ttl, writeSlot_ttl]
          exact setTtl_ttl_other _ channel d _ c' d' hcd
      · show statsGet (hincrStats (hincrStats st.stats (statKey env.today) (incrCount d))
          (statKey env.today) (incrBytes d (p.length : Int))) (statKey env.today) = _
        rw [statsGet_hincr_self, statsGet_hincr_self]
        simp
      · intro k hk
        show statsGet (hincrStats (hincrStats st.stats (statKey env.today) (incrCount d))
          (statKey env.today) (incrBytes d (p.length : Int))) k = _
        rw [statsGet_hincr_other _ _ _ _ hk, statsGet_hincr_other _ _ _ _ hk]
  · rw [enqueue] at h
    rw [if_neg (by simpa using hm)] at h
    exact Except.noConfusion h

/-- Claim C10.  Frame effect of a successful `_enqueue`: in the target
slot exactly `message`, `posted_time` and `pickup_time` change (written
by the one `hmset` call of the source), and the TTL is refreshed;
`dequeue_busy` and `reply_fast_polls_left` keep their old values; every
other slot key — other channels and the opposite direction — is
untouched, field-wise and TTL-wise; today's statistics hash gets its
count incremented by one and its byte counter by `len(payload)`, and
every other statistics hash is untouched. -/
theorem claim_C10_enqueue_frame (env : Env) (st st' : Store) (channel : String) (d : Direction)
    (p : Bytes) (h : enqueue env st d channel p = .ok st') :
    (st'.slots channel d).message = some p ∧
    (st'.slots channel d).posted_time = some env.now ∧
    (st'.slots channel d).pickup_time = some "" ∧
    (st'.slots channel d).dequeue_busy = (st.slots channel d).dequeue_busy ∧
    (st'.slots channel d).reply_fast_polls_left = (st.slots channel d).reply_fast_polls_left ∧
    st'.ttl channel d = some EXPIRE_SECS ∧
    (∀ (c' : String) (d' : Direction), ¬(c' = channel ∧ d' = d) →
      st'.slots c' d' = st.slots c' d' ∧ st'.ttl c' d' = st.ttl c' d') ∧
    statsGet st'.stats (statKey env.today) =
      some (incrBytes d (p.length : Int) (incrCount d
        ((statsGet st.stats (statKey env.today)).getD ⟨none, none, none, none⟩))) ∧
    (∀ k, k ≠ statKey env.today → statsGet st'.stats k = statsGet st.stats k) :=
  enqueue_frame_spec env st st' channel d p h

/-- Witness for C10: posting one byte to an empty store. -/
theorem claim_C10_witness :
    enqueue env0 emptyStore .request "c" [1] =
      .ok (okStore (enqueue env0 emptyStore .request "c" [1]) emptyStore) ∧
    ((okStore (enqueue env0 emptyStore .request "c" [1]) emptyStore).slots "c" .request).message =
      some [1] ∧
    statsGet (okStore (enqueue env0 emptyStore .request "c" [1]) emptyStore).stats
        (statKey env0.today) =
      some ⟨some 1, some 1, none, none⟩ :=
  ⟨rfl,
   (claim_C10_enqueue_frame env0 emptyStore _ "c" .request [1] rfl).1,
   rfl⟩

theorem startsWith_text_plain : strStartsWith "text/plain" "text/plain" = true := by decide

/-- Claim C4.  SlotOccupied: when the slot already holds a `message`,
`_enqueue` raises "contains unprocessed message" without touching
anything; `queue_reply` surfaces this as a 500 whose body is that text,
keeping the store unchanged; and concretely a second POST to
`/queue_reply` on a channel fails while the first reply is still held
(no cross-direction sweep exists for replies). -/
theorem claim_C4_slot_occupied (env : Env) (st : Store) (channel : String) (d : Direction)
    (p m0 : Bytes) (hm : (st.slots channel d).message = some m0) :
    enqueue env st d channel p =
      .error ("Channel " ++ slotKeyName channel d ++ " contains unprocessed message") ∧
    (d = .reply →
      queue_reply env st (some channel) "text/plain" p =
        (st, errorResponse
          ("Channel " ++ slotKeyName channel .reply ++ " contains unprocessed message"))) ∧
    (∀ st0 : Store, (st0.slots channel .reply).message = none →
      (queue_reply env st0 (some channel) "text/plain" m0).2.status = 200 ∧
      ((queue_reply env st0 (some channel) "text/plain" m0).1.slots channel .reply).message =
        some m0 ∧
      queue_reply env (queue_reply env st0 (some channel) "text/plain" m0).1
          (some channel) "text/plain" p =
        ((queue_reply env st0 (some channel) "text/plain" m0).1,
         errorResponse
           ("Channel " ++ slotKeyName channel .reply ++ " contains unprocessed message"))) := by
  have herr : ∀ (st1 : Store) (d1 : Direction), (st1.slots channel d1).message = some m0 →
      enqueue env st1 d1 channel p =
        .error ("Channel " ++ slotKeyName channel d1 ++ " contains unprocessed message") := by
    intro st1 d1 hm1
    rw [enqueue, if_neg (by simp [hm1])]
  refine ⟨herr st d hm, ?_, ?_⟩
  · intro hd
    subst hd
    unfold queue_reply
    simp [herr st .reply hm, startsWith_text_plain]
  · intro st0 hm0
    have hok := enqueue_ok env st0 .reply channel m0 hm0
    have hq : queue_reply env st0 (some channel) "text/plain" m0 =
        (update_stats env (setTtl (writeSlot st0 channel .reply (fun s =>
          { s with message := some m0, pickup_time := some "", posted_time := some env.now }))
          channel .reply EXPIRE_SECS) .reply m0, ⟨200, "text/plain", []⟩) := by
      unfold queue_reply
      simp [hok, startsWith_text_plain]
    have hslot1 : ((update_stats env (setTtl (writeSlot st0 channel .reply (fun s =>
        { s with message := some m0, pickup_time := some "", posted_time := some env.now }))
        channel .reply EXPIRE_SECS) .reply m0).slots channel .reply).message = some m0 := by
      simp
    rw [hq]
    refine ⟨rfl, hslot1, ?_⟩
    unfold queue_reply
    simp [herr _ .reply hslot1, startsWith_text_plain]

/-- Witness for C4 at a concrete occupied reply slot. -/
theorem claim_C4_witness :
    (staleReplyStore.slots "c" Direction.reply).message = some [7] ∧
    enqueue env0 staleReplyStore .reply "c" [9] =
      .error ("Channel " ++ slotKeyName "c" .reply ++ " contains unprocessed message") :=
  ⟨rfl, (claim_C4_slot_occupied env0 staleReplyStore "c" .reply [9] [7] rfl).1⟩

/-- Reads of any other slot key are unaffected by a fault-free
`_dequeue`, whatever path it takes, and statistics never change. -/
theorem dequeueRun_frame (env : Env) (st : Store) (d : Direction) (channel : String)
    (reset : Bool) (c' : String) (d' : Direction) (h : ¬(c' = channel ∧ d' = d)) :
    (dequeueRun env st d channel reset).store.slots c' d' = st.slots c' d' ∧
    (dequeueRun env st d channel reset).store.ttl c' d' = st.ttl c' d' ∧
    (dequeueRun env st d channel reset).store.stats = st.stats := by
  unfold dequeueRun
  cases hb : ((st.slots channel d).dequeue_busy).getD .idle with
  | busy => simp
  | idle =>
    rw [if_neg (fun hh => BusyFlag.noConfusion hh)]
    cases reset with
    | false =>
      simp only [Bool.false_eq_true, if_false, setTtl_slots, writeSlot_slots_self]
      by_cases hf : (st.slots channel d).reply_fast_polls_left.getD env.allowed_fast_polls > 0
      all_goals simp only [hf, if_true, if_false, ite_true, ite_false]
      all_goals split <;> try split
      all_goals refine ⟨?_, ?_, ?_⟩ <;>
        simp [writeSlot, setTtl, releaseBusy, delMessageStore, dropTtlIfEmptyKey,
          Slot.isEmptyKey, h]
    | true =>
      simp only [eq_self_iff_true, if_true, setTtl_slots, writeSlot_slots_self]
      by_cases hms : (st.slots channel d).message.isSome
      all_goals simp only [hms, if_true, if_false, ite_true, ite_false, Bool.false_eq_true,
        delMessageStore_slots, setTtl_slots, writeSlot_slots_self]
      all_goals by_cases hf : (st.slots channel d).reply_fast_polls_left.getD env.allowed_fast_polls > 0
      all_goals simp only [hf, if_true, if_false, ite_true, ite_false]
      all_goals split <;> try split
      all_goals refine ⟨?_, ?_, ?_⟩ <;>
        simp [writeSlot, setTtl, releaseBusy, delMessageStore, dropTtlIfEmptyKey,
          Slot.isEmptyKey, h]

/-- Full characterisation of a fault-free valid-reader `_dequeue` call:
result fields and the final state of the target slot, as functions of
the initial slot.  `reset_first` empties the slot before polling, so
the returned message is the initial one only without reset; a returned
*truthy* (nonempty) message is consumed — deleted, `pickup_time`
stamped, fast-poll counter reset — while an empty or absent one leaves
the consume step unexecuted. -/
theorem dequeueRun_valid_spec (env : Env) (st : Store) (d : Direction) (channel : String)
    (reset : Bool) (hbusy : ((st.slots channel d).dequeue_busy).getD .idle ≠ .busy) :
    (dequeueRun env st d channel reset).exc = none ∧
    (dequeueRun env st d channel reset).valid_reader = true ∧
    (dequeueRun env st d channel reset).interval =
      some (if (st.slots channel d).reply_fast_polls_left.getD env.allowed_fast_polls > 0
        then env.fast_poll_ms else env.slow_poll_ms) ∧
    (dequeueRun env st d channel reset).message =
      (if reset then none else (st.slots channel d).message) ∧
    ((dequeueRun env st d channel reset).store.slots channel d).dequeue_busy =
      some BusyFlag.idle ∧
    ((dequeueRun env st d channel reset).store.slots channel d).posted_time =
      (st.slots channel d).posted_time ∧
    (dequeueRun env st d channel reset).store.ttl channel d = some EXPIRE_SECS ∧
    ((dequeueRun env st d channel reset).store.slots channel d).message =
      (if bytesTruthy (if reset then none else (st.slots channel d).message) then none
        else (if reset then none else (st.slots channel d).message)) ∧
    ((dequeueRun env st d channel reset).store.slots channel d).pickup_time =
      (if bytesTruthy (if reset then none else (st.slots channel d).message) then some env.now
        else some "") ∧
    ((dequeueRun env st d channel reset).store.slots channel d).reply_fast_polls_left =
      (if bytesTruthy (if reset then none else (st.slots channel d).message)
        then some env.allowed_fast_polls
        else (if (st.slots channel d).reply_fast_polls_left.getD env.allowed_fast_polls > 0
          then some ((st.slots channel d).reply_fast_polls_left.getD env.allowed_fast_polls - 1)
          else (st.slots channel d).reply_fast_polls_left)) := by
  unfold dequeueRun
  rw [if_neg hbusy]
  cases reset with
  | false =>
    simp only [Bool.false_eq_true, if_false, ite_false, setTtl_slots, writeSlot_slots_self]
    by_cases hf : (st.slots channel d).reply_fast_polls_left.getD env.allowed_fast_polls > 0
    all_goals simp only [hf, if_true, if_false, ite_true, ite_false]
    all_goals
      cases hm : (st.slots channel d).message with
      | none =>
        simp [hm, hf, bytesTruthy, writeSlot, setTtl, releaseBusy, delMessageStore,
          dropTtlIfEmptyKey, Slot.isEmptyKey]
      | some m =>
        by_cases he : m.isEmpty = true <;>
          simp [he, hm, hf, bytesTruthy, writeSlot, setTtl, releaseBusy, delMessageStore,
            dropTtlIfEmptyKey, Slot.isEmptyKey]
  | true =>
    simp only [eq_self_iff_true, if_true, ite_true, setTtl_slots, writeSlot_slots_self]
    cases hm : (st.slots channel d).message
    all_goals
      simp only [hm, Option.isSome_some, Option.isSome_none, if_true, if_false, ite_true,
        ite_false, Bool.false_eq_true, delMessageStore_slots, setTtl_slots, writeSlot_slots_self]
    all_goals by_cases hf : (st.slots channel d).reply_fast_polls_left.getD env.allowed_fast_polls > 0
    all_goals
      simp [hf, hm, bytesTruthy, writeSlot, setTtl, releaseBusy, delMessageStore,
        dropTtlIfEmptyKey, Slot.isEmptyKey]

/-- Claim C8, counterexample: a write to a slot's key does *not*
refresh the TTL.  The `finally` release write of `_dequeue`
(`releaseBusy`, an `hmset` on the slot key) leaves the key's TTL
exactly as it was — here absent, not `EXPIRE_SECS` — because Redis
`hmset` never touches a TTL; only the explicit `expire` calls do. -/
theorem claim_C8_counterexample :
    (releaseBusy staleReplyStore "c" .request).ttl "c" .request = none ∧
    ¬((releaseBusy staleReplyStore "c" .request).ttl "c" .request = some EXPIRE_SECS) :=
  ⟨rfl, by simp [releaseBusy, writeSlot, staleReplyStore]⟩

/-- Claim C8 as amended: the slot writes themselves do not refresh the
TTL, but `_enqueue` and the preparation phase of every
interlock-acquiring `_dequeue` call `expire` explicitly, so after any
successful enqueue and after any fault-free valid-reader dequeue the
slot's TTL equals `EXPIRE_SECS`. -/
theorem claim_C8_ttl_refresh (env : Env) (st st' : Store) (channel : String) (d : Direction)
    (p : Bytes) (reset : Bool)
    (hbusy : (st.slots channel d).dequeue_busy ≠ some .busy) :
    (enqueue env st d channel p = .ok st' → st'.ttl channel d = some EXPIRE_SECS) ∧
    (dequeue env st d channel reset noFault).store.ttl channel d = some EXPIRE_SECS := by
  constructor
  · intro h
    by_cases hm : (st.slots channel d).message = none
    · rw [enqueue_ok env st d channel p hm] at h
      cases h with
      | refl => simp
    · rw [enqueue, if_neg (by simpa using hm)] at h
      exact Except.noConfusion h
  · rw [dequeue_noFault]
    have hb' : ((st.slots channel d).dequeue_busy).getD .idle ≠ .busy :=
      fun hh => hbusy ((getD_eq_busy_iff _).mp hh)
    exact (dequeueRun_valid_spec env st d channel reset hb').2.2.2.2.2.2.1

/-- Witness for the amended C8: a fault-free dequeue on an empty slot
leaves the slot's TTL at `EXPIRE_SECS`. -/
theorem claim_C8_witness :
    (emptyStore.slots "c" Direction.request).dequeue_busy ≠ some BusyFlag.busy ∧
    (dequeue envShort emptyStore .request "c" false noFault).store.ttl "c" .request =
      some EXPIRE_SECS :=
  ⟨by decide,
   (claim_C8_ttl_refresh envShort emptyStore emptyStore "c" .request [] false (by decide)).2⟩

/-- Claim C1, counterexample: for the *empty* byte payload the claim
fails.  `queue_request` accepts the empty body (status 200) and the
next `_dequeue` returns `(b'', valid)` — the HTTP layer would even
answer 200 — but `if message:` is false for `b''`, so the consume step
never runs and the slot's `message` field is still present (`some []`)
afterwards, not absent as claimed. -/
theorem claim_C1_counterexample :
    (queue_request env0 emptyStore (some "c") "application/json" []).2.status = 200 ∧
    (dequeue env0 (queue_request env0 emptyStore (some "c") "application/json" []).1
        .request "c" false noFault).message = some [] ∧
    (dequeue env0 (queue_request env0 emptyStore (some "c") "application/json" []).1
        .request "c" false noFault).valid_reader = true ∧
    ((dequeue env0 (queue_request env0 emptyStore (some "c") "application/json" []).1
        .request "c" false noFault).store.slots "c" .request).message = some [] :=
  ⟨rfl, rfl, rfl, rfl⟩

/-- Claim C1 as amended: round-trip identity for *nonempty* payloads.
If `_enqueue` succeeds and the next `_dequeue` on the same slot starts
with an idle (or absent) `dequeue_busy` and `reset_first = false`, it
returns `(p, true)` with `p` exactly the enqueued bytes (before any
response padding) and leaves the `message` field absent. -/
theorem claim_C1_round_trip (env : Env) (st st' : Store) (d : Direction) (channel : String)
    (p : Bytes) (hp : p ≠ [])
    (henq : enqueue env st d channel p = .ok st')
    (hbusy : (st'.slots channel d).dequeue_busy ≠ some .busy) :
    (dequeue env st' d channel false noFault).message = some p ∧
    (dequeue env st' d channel false noFault).valid_reader = true ∧
    ((dequeue env st' d channel false noFault).store.slots channel d).message = none := by
  have hmsg : (st'.slots channel d).message = some p :=
    (enqueue_frame_spec env st st' channel d p henq).1
  have hb' : ((st'.slots channel d).dequeue_busy).getD .idle ≠ .busy :=
    fun hh => hbusy ((getD_eq_busy_iff _).mp hh)
  rw [dequeue_noFault]
  obtain ⟨-, hvalid, -, hmsgr, -, -, -, hfinal, -, -⟩ :=
    dequeueRun_valid_spec env st' d channel false hb'
  have hpe : p.isEmpty = false := by
    cases p with
    | nil => exact absurd rfl hp
    | cons a t => rfl
  refine ⟨?_, hvalid, ?_⟩
  · rw [hmsgr]
    simp [hmsg]
  · rw [hfinal]
    simp [hmsg, bytesTruthy, hpe]

/-- Witness for the amended C1: the one-byte payload `[1]` round-trips
on channel `c` and empties the slot. -/
theorem claim_C1_witness :
    ([1] ≠ ([] : Bytes)) ∧
    enqueue env0 emptyStore .request "c" [1] =
      .ok (okStore (enqueue env0 emptyStore .request "c" [1]) emptyStore) ∧
    (dequeue env0 (okStore (enqueue env0 emptyStore .request "c" [1]) emptyStore)
        .request "c" false noFault).message = some [1] ∧
    ((dequeue env0 (okStore (enqueue env0 emptyStore .request "c" [1]) emptyStore)
        .request "c" false noFault).store.slots "c" .request).message = none :=
  ⟨by decide, rfl,
   (claim_C1_round_trip env0 emptyStore _ .request "c" [1] (by decide) rfl (by decide)).1,
   (claim_C1_round_trip env0 emptyStore _ .request "c" [1] (by decide) rfl (by decide)).2.2⟩

/-- Claim C6.  Cadence selection in a valid-reader `_dequeue` call:
the stored `reply_fast_polls_left` is read with absence seeded to
`ALLOWED_FAST_DEQUEUE_POLLS`; a positive value selects the fast
interval and its decrement is persisted (observable whenever no
message is consumed, e.g. on the timeout path); the value 0 selects the
slow interval and leaves the stored counter untouched on that path —
so a waiter with no producer downshifts to slow polling once the
counter is exhausted. -/
theorem claim_C6_cadence (env : Env) (st : Store) (d : Direction) (channel : String)
    (reset : Bool) (hbusy : (st.slots channel d).dequeue_busy ≠ some .busy) :
    ((st.slots channel d).reply_fast_polls_left.getD env.allowed_fast_polls > 0 →
      (dequeue env st d channel reset noFault).interval = some env.fast_poll_ms) ∧
    ((st.slots channel d).reply_fast_polls_left.getD env.allowed_fast_polls > 0 →
      (dequeue env st d channel reset noFault).message = none →
      ((dequeue env st d channel reset noFault).store.slots channel d).reply_fast_polls_left =
        some ((st.slots channel d).reply_fast_polls_left.getD env.allowed_fast_polls - 1)) ∧
    ((st.slots channel d).reply_fast_polls_left.getD env.allowed_fast_polls = 0 →
      (dequeue env st d channel reset noFault).interval = some env.slow_poll_ms) ∧
    ((st.slots channel d).reply_fast_polls_left.getD env.allowed_fast_polls = 0 →
      (dequeue env st d channel reset noFault).message = none →
      ((dequeue env st d channel reset noFault).store.slots channel d).reply_fast_polls_left =
        (st.slots channel d).reply_fast_polls_left) := by
  have hb' : ((st.slots channel d).dequeue_busy).getD .idle ≠ .busy :=
    fun hh => hbusy ((getD_eq_busy_iff _).mp hh)
  rw [dequeue_noFault]
  obtain ⟨-, -, hintv, hmsgr, -, -, -, -, -, hpolls⟩ :=
    dequeueRun_valid_spec env st d channel reset hb'
  refine ⟨?_, ?_, ?_, ?_⟩
  · intro hf
    rw [hintv, if_pos hf]
  · intro hf hnone
    have htr : bytesTruthy (if reset then none else (st.slots channel d).message) = false := by
      rw [hmsgr] at hnone
      rw [hnone]
      rfl
    rw [hpolls, htr]
    simp [hf]
  · intro hf0
    rw [hintv, if_neg (by rw [hf0]; exact lt_irrefl 0)]
  · intro hf0 hnone
    have htr : bytesTruthy (if reset then none else (st.slots channel d).message) = false := by
      rw [hmsgr] at hnone
      rw [hnone]
      rfl
    rw [hpolls, htr]
    simp [hf0]

/-- Witness for C6: the empty slot seeds the counter to the default 10,
selects the fast interval, and persists 9 after the timing-out call. -/
theorem claim_C6_witness :
    (emptyStore.slots "c" Direction.request).dequeue_busy ≠ some BusyFlag.busy ∧
    (emptyStore.slots "c" Direction.request).reply_fast_polls_left.getD
      envShort.allowed_fast_polls > 0 ∧
    (dequeue envShort emptyStore .request "c" false noFault).interval =
      some envShort.fast_poll_ms :=
  ⟨by decide, by decide,
   (claim_C6_cadence envShort emptyStore .request "c" false (by decide)).1 (by decide)⟩

/-- Claim C7.  Fast-poll counter invariant: the counter is reset to the
configured maximum on every successful (truthy) consume; a slot whose
counter field is absent — as on slot creation — is read as the maximum
when selecting the cadence; within a single call the effective counter
never increases unless a consume resets it; and with a nonnegative
configured maximum every stored counter value stays an integer ≥ 0,
across the whole store. -/
theorem claim_C7_counter_invariant (env : Env) (st : Store) (d : Direction) (channel : String)
    (reset : Bool) (hbusy : (st.slots channel d).dequeue_busy ≠ some .busy)
    (hmax : 0 ≤ env.allowed_fast_polls)
    (hstored : ∀ (c' : String) (d' : Direction) (v : Int),
      (st.slots c' d').reply_fast_polls_left = some v → 0 ≤ v) :
    (∀ m : Bytes, (dequeue env st d channel reset noFault).message = some m → m ≠ [] →
      ((dequeue env st d channel reset noFault).store.slots channel d).reply_fast_polls_left =
        some env.allowed_fast_polls) ∧
    ((st.slots channel d).reply_fast_polls_left = none →
      (dequeue env st d channel reset noFault).interval =
        some (if env.allowed_fast_polls > 0 then env.fast_poll_ms else env.slow_poll_ms)) ∧
    ((dequeue env st d channel reset noFault).message = none →
      ((dequeue env st d channel reset noFault).store.slots channel d).reply_fast_polls_left.getD
          env.allowed_fast_polls ≤
        (st.slots channel d).reply_fast_polls_left.getD env.allowed_fast_polls) ∧
    (∀ (c' : String) (d' : Direction) (v : Int),
      ((dequeue env st d channel reset noFault).store.slots c' d').reply_fast_polls_left =
        some v → 0 ≤ v) := by
  have hb' : ((st.slots channel d).dequeue_busy).getD .idle ≠ .busy :=
    fun hh => hbusy ((getD_eq_busy_iff _).mp hh)
  rw [dequeue_noFault]
  obtain ⟨-, -, hintv, hmsgr, -, -, -, -, -, hpolls⟩ :=
    dequeueRun_valid_spec env st d channel reset hb'
  refine ⟨?_, ?_, ?_, ?_⟩
  · intro m hsome hm
    have hpe : m.isEmpty = false := by
      cases m with
      | nil => exact absurd rfl hm
      | cons a t => rfl
    rw [hmsgr] at hsome
    rw [hpolls, hsome]
    simp [bytesTruthy, hpe]
  · intro habs
    rw [hintv, habs]
    simp
  · intro hnone
    have htr : bytesTruthy (if reset then none else (st.slots channel d).message) = false := by
      rw [hmsgr] at hnone
      rw [hnone]
      rfl
    rw [hpolls, htr]
    by_cases hf : (st.slots channel d).reply_fast_polls_left.getD env.allowed_fast_polls > 0
    · simp only [hf, if_true, ite_true, Bool.false_eq_true, if_false, ite_false,
        Option.getD_some]
      omega
    · simp only [hf, Bool.false_eq_true, if_false, ite_false]
      exact le_refl _
  · intro c' d' v hv
    by_cases hcd : c' = channel ∧ d' = d
    · obtain ⟨hc, hd⟩ := hcd
      subst hc
      subst hd
      rw [hpolls] at hv
      by_cases htr : bytesTruthy (if reset then none else (st.slots c' d').message) = true
      · rw [if_pos htr] at hv
        cases hv with
        | refl => exact hmax
      · rw [if_neg htr] at hv
        by_cases hf : (st.slots c' d').reply_fast_polls_left.getD env.allowed_fast_polls > 0
        · rw [if_pos hf] at hv
          cases hv with
          | refl =>
            rcases hg : (st.slots c' d').reply_fast_polls_left with _ | w
            · rw [hg] at hf
              simp only [Option.getD_none] at hf ⊢
              omega
            · rw [hg] at hf
              simp only [Option.getD_some] at hf ⊢
              have := hstored c' d' w hg
              omega
        · rw [if_neg hf] at hv
          exact hstored c' d' v hv
    · have hframe := (dequeueRun_frame env st d channel reset c' d' hcd).1
      rw [hframe] at hv
      exact hstored c' d' v hv

/-- Witness for C7: a fault-free consume of `[1]` resets the stored
counter to the configured maximum 10. -/
theorem claim_C7_witness :
    (dequeue env0 (okStore (enqueue env0 emptyStore .request "c" [1]) emptyStore)
        .request "c" false noFault).message = some [1] ∧
    ((dequeue env0 (okStore (enqueue env0 emptyStore .request "c" [1]) emptyStore)
        .request "c" false noFault).store.slots "c" .request).reply_fast_polls_left =
      some env0.allowed_fast_polls :=
  ⟨rfl,
   (claim_C7_counter_invariant env0
      (okStore (enqueue env0 emptyStore .request "c" [1]) emptyStore) .request "c" false
      (by decide) (by decide)
      (fun c' d' v h => by
        have hfr := enqueue_frame_spec env0 emptyStore
          (okStore (enqueue env0 emptyStore .request "c" [1]) emptyStore) "c" .request [1] rfl
        by_cases hc : c' = "c" ∧ d' = Direction.request
        · obtain ⟨h1, h2⟩ := hc
          subst h1
          subst h2
          rw [hfr.2.2.2.2.1] at h
          exact Option.noConfusion h
        · rw [(hfr.2.2.2.2.2.2.1 c' d' hc).1] at h
          exact Option.noConfusion h)).1
      [1] rfl (by decide)⟩

theorem startsWith_app_json :
    strStartsWith "application/json" "application/json" = true := by decide

/-- Claim C5, counterexample: a stranded reply whose message is the
*empty* byte string is not swept.  `if last_reply:` is false for
`b''`, so `queue_request` posts the new request (200) while the reply
slot's `message` field is still present afterwards. -/
theorem claim_C5_counterexample :
    (staleEmptyReplyStore.slots "c" Direction.reply).message = some [] ∧
    (queue_request env0 staleEmptyReplyStore (some "c") "application/json"
      [123, 125]).2.status = 200 ∧
    ((queue_request env0 staleEmptyReplyStore (some "c") "application/json"
      [123, 125]).1.slots "c" Direction.reply).message = some [] :=
  ⟨rfl, rfl, rfl⟩

/-- Claim C5 as amended: on a `queue_request` call with a valid channel
and JSON content type, the handler reads the reply slot's `message`
before enqueuing and, if it is present *and nonempty*, deletes it (the
delete cannot fail, the message having just been observed); provided
the stale reply was not the empty byte string and the request slot was
free, afterwards the reply slot's `message` is absent and the request
slot's `message` holds the posted payload. -/
theorem claim_C5_stranded_sweep (env : Env) (st : Store) (channel : String) (p : Bytes)
    (hreq : (st.slots channel .request).message = none)
    (hstale : (st.slots channel .reply).message ≠ some []) :
    (queue_request env st (some channel) "application/json" p).2.status = 200 ∧
    ((queue_request env st (some channel) "application/json" p).1.slots
      channel .reply).message = none ∧
    ((queue_request env st (some channel) "application/json" p).1.slots
      channel .request).message = some p := by
  unfold queue_request
  simp only [startsWith_app_json, if_true, ite_true]
  cases hrm : (st.slots channel .reply).message with
  | none =>
    simp only [hrm, bytesTruthy, Bool.false_eq_true, if_false, ite_false]
    rw [enqueue_ok env st .request channel p hreq]
    refine ⟨rfl, ?_, by simp⟩
    simp only [update_stats_slots, setTtl_slots]
    rw [writeSlot_slots_other st channel .request _ channel .reply (by simp)]
    exact hrm
  | some m =>
    have hme : m.isEmpty = false := by
      cases m with
      | nil => exact absurd (by rw [hrm]) hstale
      | cons a t => rfl
    have hreq1 : ((delMessageStore st channel .reply).slots channel .request).message = none := by
      rw [delMessageStore_slots]
      rw [writeSlot_slots_other st channel .reply _ channel .request (by simp)]
      exact hreq
    simp only [hrm, bytesTruthy, hme, Bool.not_false, if_true, ite_true, del_message,
      Option.isSome_some]
    rw [enqueue_ok env (delMessageStore st channel .reply) .request channel p hreq1]
    refine ⟨rfl, ?_, by simp⟩
    simp only [update_stats_slots, setTtl_slots]
    rw [writeSlot_slots_other _ channel .request _ channel .reply (by simp)]
    rw [delMessageStore_slots]
    simp

/-- Witness for the amended C5: a nonempty stranded reply `[7]` is
swept and the request `[1]` is queued. -/
theorem claim_C5_witness :
    (staleReplyStore.slots "c" Direction.request).message = none ∧
    (staleReplyStore.slots "c" Direction.reply).message ≠ some [] ∧
    (queue_request env0 staleReplyStore (some "c") "application/json" [1]).2.status = 200 ∧
    ((queue_request env0 staleReplyStore (some "c") "application/json" [1]).1.slots
      "c" Direction.reply).message = none ∧
    ((queue_request env0 staleReplyStore (some "c") "application/json" [1]).1.slots
      "c" Direction.request).message = some [1] := by
  refine ⟨rfl, by decide, ?_, ?_, ?_⟩
  · exact (claim_C5_stranded_sweep env0 staleReplyStore "c" [1] rfl (by decide)).1
  · exact (claim_C5_stranded_sweep env0 staleReplyStore "c" [1] rfl (by decide)).2.1
  · exact (claim_C5_stranded_sweep env0 staleReplyStore "c" [1] rfl (by decide)).2.2

/-- `charsLe` is total. -/
theorem charsLe_total (a b : List Char) : charsLe a b = true ∨ charsLe b a = true := by
  induction a generalizing b with
  | nil => left; rfl
  | cons c1 t1 ih =>
    cases b with
    | nil => right; rfl
    | cons c2 t2 =>
      by_cases h1 : c1.toNat < c2.toNat
      · left; simp [charsLe, h1]
      · by_cases h2 : c2.toNat < c1.toNat
        · right; simp [charsLe, h2]
        · rcases ih t2 with h | h
          · left; simp [charsLe, h1, h2, h]
          · right; simp [charsLe, h1, h2, h]

/-- `charsLe` is transitive. -/
theorem charsLe_trans (a b c : List Char) (hab : charsLe a b = true)
    (hbc : charsLe b c = true) : charsLe a c = true := by
  induction a generalizing b c with
  | nil => rfl
  | cons c1 t1 ih =>
    cases b with
    | nil => simp [charsLe] at hab
    | cons c2 t2 =>
      cases c with
      | nil => simp [charsLe] at hbc
      | cons c3 t3 =>
        simp only [charsLe] at hab hbc ⊢
        by_cases h12 : c1.toNat < c2.toNat
        · by_cases h23 : c2.toNat < c3.toNat
          · have h13 : c1.toNat < c3.toNat := Nat.lt_trans h12 h23
            simp [h13]
          · by_cases h32 : c3.toNat < c2.toNat
            · rw [if_neg h23, if_pos h32] at hbc
              exact absurd hbc (by simp)
            · have h13 : c1.toNat < c3.toNat := by omega
              simp [h13]
        · by_cases h21 : c2.toNat < c1.toNat
          · rw [if_neg h12, if_pos h21] at hab
            exact absurd hab (by simp)
          · by_cases h23 : c2.toNat < c3.toNat
            · have h13 : c1.toNat < c3.toNat := by omega
              simp [h13]
            · by_cases h32 : c3.toNat < c2.toNat
              · rw [if_neg h23, if_pos h32] at hbc
                exact absurd hbc (by simp)
              · have h13 : ¬c1.toNat < c3.toNat := by omega
                have h31 : ¬c3.toNat < c1.toNat := by omega
                rw [if_neg h12, if_neg h21] at hab
                rw [if_neg h23, if_neg h32] at hbc
                rw [if_neg h13, if_neg h31]
                exact ih t2 t3 hab hbc

/-- Claim C9.  Stats CSV projection: `/stats` answers 200 `text/csv`;
its body is the fixed header line followed by the `stat:*` rows — one
per statistics key, each row the date (the key less the 5-character
`stat:` prefix) and the four counters `count:request`, `request`,
`count:reply`, `reply` in `hmget` order with an absent field rendered
as the empty string (`statLine`) — and the emitted rows are a
permutation of those rows arranged in ascending date order.  The
`Nodup` hypothesis records that Redis key enumerations never repeat a
key (so the handler's dict never collapses two entries). -/
theorem claim_C9_stats_csv (st : Store) (hnd : (st.stats.map Prod.fst).Nodup) :
    (stats_endpoint st).status = 200 ∧
    (stats_endpoint st).content_type = "text/csv" ∧
    ∃ rows : List (String × String),
      rows.Perm (statsRows st) ∧
      rows.Pairwise rowLe ∧
      (stats_endpoint st).body =
        strBytes (statsHeader ++ "\n" ++ String.intercalate "\n" (rows.map Prod.snd)) ∧
      statsRows st = (st.stats.filter (fun kv => strStartsWith "stat:" kv.1)).map
        (fun kv => (kv.1.drop 5, statLine (kv.1.drop 5) kv.2)) := by
  refine ⟨rfl, rfl, statsSorted st, List.perm_insertionSort _ _, ?_, rfl, rfl⟩
  exact @List.sorted_insertionSort _ rowLe _
    ⟨fun a b => charsLe_total a.1.data b.1.data⟩
    ⟨fun a b c hab hbc => charsLe_trans a.1.data b.1.data c.1.data hab hbc⟩
    (statsRows st)

/-- Witness for C9: two stat records listed out of date order come
back sorted, absent fields rendered empty. -/
theorem claim_C9_witness :
    (statStore.stats.map Prod.fst).Nodup ∧
    (stats_endpoint statStore).status = 200 ∧
    (stats_endpoint statStore).content_type = "text/csv" ∧
    statsBody statStore =
      "date,count(request),request bytes,count(reply),reply bytes\n2021-01-01,1,10,1,5\n2021-02-03,2,30,," :=
  ⟨by decide,
   (claim_C9_stats_csv statStore (by decide)).1,
   (claim_C9_stats_csv statStore (by decide)).2.1,
   by decide⟩

end JupyterBridge
